import Mathlib

/-!
Shallow embedding of `src/lib/termbox2_nif/c_src/termbox2_nif.c`, the
Erlang NIF bridge to the termbox2 terminal engine.  The embedding models

* boundary (Erlang) terms as an inductive `ErlTerm`;
* the `erl_nif` conversion API (`enif_get_int`, `enif_get_uint`,
  `enif_inspect_binary`, `enif_get_string`) by its documented contract;
* each NIF handler as an executable Lean function returning the result
  term together with the engine calls it issued, or (for the window
  decoration handlers) the bytes it wrote to standard output.

Only the POSIX (escape-sequence) branch of the two decoration handlers
is compiled in this source tree (`#ifdef _WIN32` selects the other
branch at build time), so that is the branch embedded here.  Whether the
`printf` call succeeds is abstracted by a `writeOk : Bool` parameter.
-/

namespace Termbox2Nif

/-- An Erlang term as seen at the NIF boundary.  `binary` carries the raw
bytes of an Erlang binary; `list` is an Erlang list of integers (the
charlist shape — every conversion in this file treats an Erlang list
whose elements are not all integers exactly like any other non-binary,
non-charlist term, so those are subsumed by `atom`); `str` models the
charlist built by `enif_make_string`; `badarg` models the badarg
exception produced by `enif_make_badarg`; `tuple2` is the two-element
tuple built by `enif_make_tuple2`. -/
inductive ErlTerm where
  | int (n : Int)
  | binary (bs : List Nat)
  | list (ns : List Int)
  | atom (s : String)
  | str (s : String)
  | tuple2 (a b : ErlTerm)
  | badarg
deriving DecidableEq

/-- Smallest value of a native C `int` (32-bit). -/
def INT_MIN : Int := -2147483648

/-- Largest value of a native C `int` (32-bit). -/
def INT_MAX : Int := 2147483647

/-- Largest value of a native C `unsigned int` (32-bit). -/
def UINT_MAX : Int := 4294967295

/-- `enif_get_int`: succeeds exactly when the term is an Erlang integer
representable in a native signed `int`. -/
def enif_get_int : ErlTerm → Option Int
  | .int n => if INT_MIN ≤ n ∧ n ≤ INT_MAX then some n else none
  | _ => none

/-- `enif_get_uint`: succeeds exactly when the term is an Erlang integer
representable in a native `unsigned int`. -/
def enif_get_uint : ErlTerm → Option Int
  | .int n => if 0 ≤ n ∧ n ≤ UINT_MAX then some n else none
  | _ => none

/-- `enif_is_binary`. -/
def enif_is_binary : ErlTerm → Bool
  | .binary _ => true
  | _ => false

/-- `enif_inspect_binary`: yields the byte contents of a binary term. -/
def enif_inspect_binary : ErlTerm → Option (List Nat)
  | .binary bs => some bs
  | _ => none

/-- The bytes of a latin-1 charlist: every element must be an integer in
`[0, 255]`. -/
def charlistBytes : List Int → Option (List Nat)
  | [] => some []
  | n :: ns =>
      if 0 ≤ n ∧ n ≤ 255 then (charlistBytes ns).map (n.toNat :: ·) else none

/-- `enif_get_string(env, term, buf, 256, ERL_NIF_LATIN1)` per the
`erl_nif` API contract: returns the number of bytes written including the
terminating zero on success, `0` when the term is not a latin-1 charlist,
and `-256` (minus the buffer size) when the charlist had to be truncated
to fit the 256-byte buffer.  The second component is the buffer content
actually written (always zero-terminated). -/
def enif_get_string256 : ErlTerm → Int × List Nat
  | .list ns =>
      match charlistBytes ns with
      | none => (0, [])
      | some cs =>
          if cs.length + 1 ≤ 256 then ((cs.length : Int) + 1, cs ++ [0])
          else (-256, cs.take 255 ++ [0])
  | _ => (0, [])

/-- Reading a zero-terminated buffer as a C string (`printf "%s"` does
this): the bytes strictly before the first zero byte. -/
def cstring (buf : List Nat) : List Nat := buf.takeWhile (· != 0)

/-- The `{error, badarg}` tuple both decoration handlers build for every
validation failure. -/
def errBadargTuple : ErlTerm := .tuple2 (.atom "error") (.atom "badarg")

/-- The `{ok, "set"}` success tuple of the decoration handlers. -/
def okSet : ErlTerm := .tuple2 (.atom "ok") (.str "set")

/-- An `{error, Message}` tuple whose reason is a descriptive string
built with `enif_make_string`. -/
def errMsg (s : String) : ErlTerm := .tuple2 (.atom "error") (.str s)

/-- Marshalling of a host byte payload into an owned, zero-terminated
buffer (`malloc(size+1); memcpy; buf[size] = 0` in `nif_tb_print`, and
the same copy-then-terminate step in `tb_set_title`). -/
def marshal (payload : List Nat) : List Nat := payload ++ [0]

/-- Reading the marshalled buffer back: all bytes before the final
terminator. -/
def readBack (buf : List Nat) : List Nat := buf.dropLast

/-- Decimal rendering of a C `int` by `printf "%d"`, as ASCII bytes. -/
def decBytes (n : Int) : List Nat :=
  if n < 0 then 45 :: (Nat.toDigits 10 n.natAbs).map Char.toNat
  else (Nat.toDigits 10 n.toNat).map Char.toNat

/-- Emission step of `tb_set_title` (POSIX branch): write
`ESC ] 0 ; <title> BEL` with `printf("\033]0;%s\007", title)` — `%s`
transmits the buffer only up to its first zero byte — then flush. -/
def setTitleEmit (writeOk : Bool) (title : List Nat) : ErlTerm × List Nat :=
  let out := [27, 93, 48, 59] ++ cstring title ++ [7]
  if writeOk then (okSet, out) else (errMsg "Failed to set title", out)

/-- Shallow embedding of `tb_set_title` (lines 158-208, POSIX branch).
Takes the argument vector; returns the result term and the bytes written
to standard output. -/
def tb_set_title (writeOk : Bool) (argv : List ErlTerm) : ErlTerm × List Nat :=
  match argv with
  | [a] =>
      if enif_is_binary a then
        match enif_inspect_binary a with
        | none => (errBadargTuple, [])
        | some bs =>
            if bs.length ≥ 256 then (errBadargTuple, [])
            else setTitleEmit writeOk (bs ++ [0])
      else
        let r := enif_get_string256 a
        if r.1 ≠ 0 then setTitleEmit writeOk r.2
        else (errBadargTuple, [])
  | _ => (errBadargTuple, [])

/-- Shallow embedding of `tb_set_position` (lines 211-264, POSIX branch).
Takes the argument vector; returns the result term and the bytes written
to standard output (`printf("\033[3;%d;%dt", y, x)` then flush). -/
def tb_set_position (writeOk : Bool) (argv : List ErlTerm) : ErlTerm × List Nat :=
  match argv with
  | [ax, ay] =>
      match enif_get_int ax, enif_get_int ay with
      | some x, some y =>
          if x < 0 ∨ y < 0 ∨ x > 32767 ∨ y > 32767 then (errBadargTuple, [])
          else
            let out := [27, 91, 51, 59] ++ decBytes y ++ [59] ++ decBytes x ++ [116]
            if writeOk then (okSet, out) else (errMsg "Failed to set position", out)
      | _, _ => (errBadargTuple, [])
  | _ => (errBadargTuple, [])

/-- A call into the external terminal engine (termbox2). -/
inductive EngineCall where
  | setCursor (x y : Int)
  | setCell (x y ch fg bg : Int)
  | setInputMode (m : Int)
  | setOutputMode (m : Int)
  | print (x y fg bg : Int) (s : List Nat)
deriving DecidableEq

/-- Shallow embedding of `nif_tb_set_cursor` (lines 62-73): convert both
coordinates with `enif_get_int`, forward them unchanged to
`tb_set_cursor`, return the atom `ok`. -/
def nif_tb_set_cursor (a0 a1 : ErlTerm) : ErlTerm × List EngineCall :=
  match enif_get_int a0, enif_get_int a1 with
  | some x, some y => (.atom "ok", [.setCursor x y])
  | _, _ => (.badarg, [])

/-- Shallow embedding of `nif_tb_set_cell` (lines 85-102): convert the
five arguments, forward them unchanged to `tb_set_cell`, return the
engine's integer status.  `engine` gives the engine's return value for a
call. -/
def nif_tb_set_cell (engine : EngineCall → Int) (a0 a1 a2 a3 a4 : ErlTerm) :
    ErlTerm × List EngineCall :=
  match enif_get_int a0, enif_get_int a1, enif_get_uint a2,
        enif_get_uint a3, enif_get_uint a4 with
  | some x, some y, some ch, some fg, some bg =>
      (.int (engine (.setCell x y ch fg bg)), [.setCell x y ch fg bg])
  | _, _, _, _, _ => (.badarg, [])

/-- Shallow embedding of `nif_tb_set_input_mode` (lines 105-116):
convert the mode with `enif_get_int`, forward it unchanged to
`tb_set_input_mode`, return the engine's integer result. -/
def nif_tb_set_input_mode (engine : EngineCall → Int) (a0 : ErlTerm) :
    ErlTerm × List EngineCall :=
  match enif_get_int a0 with
  | some m => (.int (engine (.setInputMode m)), [.setInputMode m])
  | none => (.badarg, [])

/-- Shallow embedding of `nif_tb_set_output_mode` (lines 119-130):
convert the mode with `enif_get_int`, forward it unchanged to
`tb_set_output_mode`, return the engine's integer result. -/
def nif_tb_set_output_mode (engine : EngineCall → Int) (a0 : ErlTerm) :
    ErlTerm × List EngineCall :=
  match enif_get_int a0 with
  | some m => (.int (engine (.setOutputMode m)), [.setOutputMode m])
  | none => (.badarg, [])

/-- Shallow embedding of `nif_tb_print` (lines 133-155): convert the four
integers, inspect the binary, marshal it into a zero-terminated buffer,
forward everything to `tb_print`, return the engine's integer result. -/
def nif_tb_print (engine : EngineCall → Int) (a0 a1 a2 a3 a4 : ErlTerm) :
    ErlTerm × List EngineCall :=
  match enif_get_int a0, enif_get_int a1, enif_get_uint a2,
        enif_get_uint a3, enif_inspect_binary a4 with
  | some x, some y, some fg, some bg, some bs =>
      (.int (engine (.print x y fg bg (marshal bs))), [.print x y fg bg (marshal bs)])
  | _, _, _, _, _ => (.badarg, [])

/-- The NIF dispatch table `nif_funcs` (lines 266-280): operation name
and arity for every registered operation.  The VM only dispatches an
invocation whose name and arity both match an entry. -/
def nif_funcs : List (String × Nat) :=
  [("tb_init", 0), ("tb_shutdown", 0), ("tb_width", 0), ("tb_height", 0),
   ("tb_clear", 0), ("tb_present", 0), ("tb_set_cursor", 2),
   ("tb_hide_cursor", 0), ("tb_set_cell", 5), ("tb_set_input_mode", 1),
   ("tb_set_output_mode", 1), ("tb_print", 5), ("tb_set_title", 1),
   ("tb_set_position", 2)]

/-- Spec-side notion: the term converts losslessly to a native signed
`int`. -/
def int32able : ErlTerm → Bool
  | .int n => decide (INT_MIN ≤ n ∧ n ≤ INT_MAX)
  | _ => false

/-- Spec-side notion: the term converts losslessly to a native
`unsigned int`. -/
def uint32able : ErlTerm → Bool
  | .int n => decide (0 ≤ n ∧ n ≤ UINT_MAX)
  | _ => false

set_option maxRecDepth 10000

/-- Reading a marshalled buffer as a C string recovers a zero-free
payload exactly. -/
theorem cstring_append_zero (bs : List Nat) (h : ∀ b ∈ bs, b ≠ 0) :
    cstring (bs ++ [0]) = bs := by
  induction bs with
  | nil => rfl
  | cons a t ih =>
      have ha : (a != 0) = true := by
        simpa using h a (List.mem_cons_self a t)
      simp only [cstring, List.cons_append, List.takeWhile_cons, ha, if_true]
      exact congrArg (a :: ·) (ih fun b hb => h b (List.mem_cons_of_mem a hb))

/-- Reading a marshalled buffer as a C string yields the payload
truncated at its first zero byte: the appended terminator only ever ends
the string, it never adds a byte. -/
theorem cstring_marshal (bs : List Nat) :
    cstring (bs ++ [0]) = List.takeWhile (fun b => b != 0) bs := by
  induction bs with
  | nil => rfl
  | cons a t ih =>
      simp only [cstring, List.cons_append, List.takeWhile_cons] at *
      cases h : (a != 0) <;> simp [h, ih]

/-- Conversion with enif_get_int fails exactly on the terms that are not
integers representable in a native signed int. -/
theorem enif_get_int_none_iff (a : ErlTerm) :
    enif_get_int a = none ↔ ¬ int32able a = true := by
  cases a <;> simp [enif_get_int, int32able]

/-- Conversion with enif_get_uint fails exactly on the terms that are
not integers representable in a native unsigned int. -/
theorem enif_get_uint_none_iff (a : ErlTerm) :
    enif_get_uint a = none ↔ ¬ uint32able a = true := by
  cases a <;> simp [enif_get_uint, uint32able]

/-- The set_cell handler raises badarg exactly when one of its five
conversions fails. -/
theorem nif_tb_set_cell_badarg_iff (engine : EngineCall → Int)
    (a0 a1 a2 a3 a4 : ErlTerm) :
    (nif_tb_set_cell engine a0 a1 a2 a3 a4).1 = ErlTerm.badarg ↔
      (enif_get_int a0 = none ∨ enif_get_int a1 = none ∨
       enif_get_uint a2 = none ∨ enif_get_uint a3 = none ∨
       enif_get_uint a4 = none) := by
  unfold nif_tb_set_cell
  rcases h0 : enif_get_int a0 with _ | x0 <;>
  rcases h1 : enif_get_int a1 with _ | x1 <;>
  rcases h2 : enif_get_uint a2 with _ | x2 <;>
  rcases h3 : enif_get_uint a3 with _ | x3 <;>
  rcases h4 : enif_get_uint a4 with _ | x4 <;>
  simp [h0, h1, h2, h3, h4]

/-- The set_cursor handler raises badarg exactly when one of its two
conversions fails. -/
theorem nif_tb_set_cursor_badarg_iff (a0 a1 : ErlTerm) :
    (nif_tb_set_cursor a0 a1).1 = ErlTerm.badarg ↔
      (enif_get_int a0 = none ∨ enif_get_int a1 = none) := by
  unfold nif_tb_set_cursor
  rcases h0 : enif_get_int a0 with _ | x0 <;>
  rcases h1 : enif_get_int a1 with _ | x1 <;>
  simp [h0, h1]

/-- The set_input_mode handler raises badarg exactly when its conversion
fails. -/
theorem nif_tb_set_input_mode_badarg_iff (engine : EngineCall → Int)
    (a0 : ErlTerm) :
    (nif_tb_set_input_mode engine a0).1 = ErlTerm.badarg ↔
      enif_get_int a0 = none := by
  unfold nif_tb_set_input_mode
  rcases h : enif_get_int a0 with _ | m <;> simp [h]

/-- The set_output_mode handler raises badarg exactly when its
conversion fails. -/
theorem nif_tb_set_output_mode_badarg_iff (engine : EngineCall → Int)
    (a0 : ErlTerm) :
    (nif_tb_set_output_mode engine a0).1 = ErlTerm.badarg ↔
      enif_get_int a0 = none := by
  unfold nif_tb_set_output_mode
  rcases h : enif_get_int a0 with _ | m <;> simp [h]

/-- The result term of tb_set_title is either the badarg error tuple or
the outcome of the emission step selected by writeOk. -/
theorem tb_set_title_result_cases (w : Bool) (argv : List ErlTerm) :
    (tb_set_title w argv).1 = errBadargTuple ∨
    (tb_set_title w argv).1 =
      (if w then okSet else errMsg "Failed to set title") := by
  rcases argv with _ | ⟨a, _ | ⟨b, t⟩⟩
  · left; rfl
  · cases a with
    | binary bs =>
        by_cases hlen : bs.length ≥ 256
        · left
          simp [tb_set_title, enif_is_binary, enif_inspect_binary, hlen]
        · right
          cases w <;>
            simp [tb_set_title, enif_is_binary, enif_inspect_binary, hlen,
              setTitleEmit]
    | list ns =>
        rcases hcb : charlistBytes ns with _ | cs
        · left
          simp [tb_set_title, enif_is_binary, enif_get_string256, hcb]
        · right
          by_cases hfit : cs.length + 1 ≤ 256
          · have hne : ((cs.length : Int) + 1) ≠ 0 := by positivity
            cases w <;>
              simp [tb_set_title, enif_is_binary, enif_get_string256, hcb,
                hfit, hne, setTitleEmit]
          · cases w <;>
              simp [tb_set_title, enif_is_binary, enif_get_string256, hcb,
                hfit, setTitleEmit]
    | int n => left; simp [tb_set_title, enif_is_binary, enif_get_string256]
    | atom s => left; simp [tb_set_title, enif_is_binary, enif_get_string256]
    | str s => left; simp [tb_set_title, enif_is_binary, enif_get_string256]
    | tuple2 u v => left; simp [tb_set_title, enif_is_binary, enif_get_string256]
    | badarg => left; simp [tb_set_title, enif_is_binary, enif_get_string256]
  · left; rfl

/-- The result term of tb_set_position is either the badarg error tuple
or the outcome of the emission step selected by writeOk. -/
theorem tb_set_position_result_cases (w : Bool) (argv : List ErlTerm) :
    (tb_set_position w argv).1 = errBadargTuple ∨
    (tb_set_position w argv).1 =
      (if w then okSet else errMsg "Failed to set position") := by
  rcases argv with _ | ⟨ax, _ | ⟨ay, _ | ⟨c, t⟩⟩⟩
  · left; rfl
  · left; rfl
  · rcases h0 : enif_get_int ax with _ | x <;>
    rcases h1 : enif_get_int ay with _ | y
    · left; simp [tb_set_position, h0, h1]
    · left; simp [tb_set_position, h0, h1]
    · left; simp [tb_set_position, h0, h1]
    · by_cases hr : x < 0 ∨ y < 0 ∨ x > 32767 ∨ y > 32767
      · left; simp [tb_set_position, h0, h1, hr]
      · right; cases w <;> simp [tb_set_position, h0, h1, hr]
  · left; rfl

/-- C1: the claim says every set_title payload of length at least 256
bytes — raw binary or legacy latin-1 charlist — is rejected with the
badarg error before any output.  The code violates this on the charlist
path: enif_get_string truncates an oversized charlist to 255 bytes and
returns -256, which the truthiness test treats as success, so a 256-byte
charlist payload is truncated, emitted, and reported as set. -/
theorem set_title_oversized_charlist_accepted :
    tb_set_title true [ErlTerm.list (List.replicate 256 97)] =
      (okSet, [27, 93, 48, 59] ++ List.replicate 255 97 ++ [7]) ∧
    okSet ≠ errBadargTuple := by
  constructor
  · decide
  · decide

/-- C2: for every argument pair (x, y) with x or y negative or above
32767, set_position returns the badarg error tuple and writes nothing
(no platform call occurs). -/
theorem set_position_out_of_range_rejected (w : Bool) (x y : Int)
    (h : x < 0 ∨ y < 0 ∨ x > 32767 ∨ y > 32767) :
    tb_set_position w [ErlTerm.int x, ErlTerm.int y] = (errBadargTuple, []) := by
  by_cases hx : INT_MIN ≤ x ∧ x ≤ INT_MAX <;>
  by_cases hy : INT_MIN ≤ y ∧ y ≤ INT_MAX <;>
  simp [tb_set_position, enif_get_int, hx, hy, h]

/-- Witness for C2 at the spec scenario (32768, 0). -/
theorem set_position_out_of_range_witness :
    tb_set_position true [ErlTerm.int 32768, ErlTerm.int 0] =
      (errBadargTuple, []) :=
  set_position_out_of_range_rejected true 32768 0 (by decide)

/-- C3 counterexample: the claim says the transmitted title bytes equal
the payload followed by the single BEL terminator for every payload of
length at most 255.  A payload with an embedded zero byte refutes it:
printf stops at the first zero, so only the bytes before it are
transmitted, yet the call still reports success. -/
theorem set_title_nul_payload_counterexample :
    (tb_set_title true [ErlTerm.binary [65, 0, 66]]).1 = okSet ∧
    (tb_set_title true [ErlTerm.binary [65, 0, 66]]).2 =
      [27, 93, 48, 59, 65, 7] ∧
    (tb_set_title true [ErlTerm.binary [65, 0, 66]]).2 ≠
      [27, 93, 48, 59] ++ [65, 0, 66] ++ [7] := by decide

/-- C3 (amended): every binary payload of length at most 255 succeeds
with the ok set result, and the emitted bytes are exactly the OSC-0
prefix, the payload truncated at its first zero byte, and the BEL
terminator — so for zero-free payloads exactly the payload followed by
the terminator; when the write fails the result is the descriptive
error tuple. -/
theorem set_title_small_payload_transmission (bs : List Nat)
    (hlen : bs.length ≤ 255) :
    tb_set_title true [ErlTerm.binary bs] =
      (okSet, [27, 93, 48, 59] ++ List.takeWhile (fun b => b != 0) bs ++ [7]) ∧
    (tb_set_title false [ErlTerm.binary bs]).1 =
      errMsg "Failed to set title" ∧
    ((∀ b ∈ bs, b ≠ 0) → List.takeWhile (fun b => b != 0) bs = bs) := by
  have h1 : ¬ bs.length ≥ 256 := by omega
  refine ⟨?_, ?_,
    fun hnz => (cstring_marshal bs).symm.trans (cstring_append_zero bs hnz)⟩ <;>
    simp [tb_set_title, enif_is_binary, enif_inspect_binary, h1,
      setTitleEmit, cstring_marshal]

/-- Witness for C3 (amended) at the payload [72, 0, 105], whose embedded
zero byte truncates the transmission after the first byte. -/
theorem set_title_small_payload_witness :
    tb_set_title true [ErlTerm.binary [72, 0, 105]] =
      (okSet,
       [27, 93, 48, 59] ++ List.takeWhile (fun b => b != 0) [72, 0, 105] ++ [7]) ∧
    (tb_set_title false [ErlTerm.binary [72, 0, 105]]).1 =
      errMsg "Failed to set title" ∧
    List.takeWhile (fun b => b != 0) [72, 0, 105] = [72] :=
  ⟨(set_title_small_payload_transmission [72, 0, 105] (by decide)).1,
   (set_title_small_payload_transmission [72, 0, 105] (by decide)).2.1,
   by decide⟩

/-- C4: the claim says every validation failure — including an oversized
buffer — returns the badarg error with no side effect.  The code
violates it: a 256-byte legacy charlist payload to set_title is an
oversized buffer, yet the handler emits output and does not return the
badarg error tuple. -/
theorem validation_failure_side_effect_bug :
    (tb_set_title true [ErlTerm.list (List.replicate 256 98)]).2 ≠ [] ∧
    (tb_set_title true [ErlTerm.list (List.replicate 256 98)]).1 ≠
      errBadargTuple := by
  constructor
  · decide
  · decide

/-- C5: for every in-range pair (x, y), set_position emits exactly
ESC [ 3 ; y ; x t (y before x, in decimal), returns the ok set tuple
when the write succeeds, and returns the descriptive error tuple when
the write fails. -/
theorem set_position_escape_emission (x y : Int)
    (hx0 : 0 ≤ x) (hx1 : x ≤ 32767) (hy0 : 0 ≤ y) (hy1 : y ≤ 32767) :
    tb_set_position true [ErlTerm.int x, ErlTerm.int y] =
      (okSet, [27, 91, 51, 59] ++ decBytes y ++ [59] ++ decBytes x ++ [116]) ∧
    (tb_set_position false [ErlTerm.int x, ErlTerm.int y]).1 =
      errMsg "Failed to set position" := by
  have hx : INT_MIN ≤ x ∧ x ≤ INT_MAX := by
    constructor <;> simp [INT_MIN, INT_MAX] <;> omega
  have hy : INT_MIN ≤ y ∧ y ≤ INT_MAX := by
    constructor <;> simp [INT_MIN, INT_MAX] <;> omega
  have hr : ¬(x < 0 ∨ y < 0 ∨ x > 32767 ∨ y > 32767) := by omega
  constructor <;> simp [tb_set_position, enif_get_int, hx, hy, hr]

/-- Witness for C5 at (x, y) = (7, 42): the emitted bytes are the ASCII
of ESC [ 3 ; 4 2 ; 7 t. -/
theorem set_position_escape_emission_witness :
    tb_set_position true [ErlTerm.int 7, ErlTerm.int 42] =
      (okSet, [27, 91, 51, 59] ++ decBytes 42 ++ [59] ++ decBytes 7 ++ [116]) ∧
    decBytes 42 = [52, 50] ∧ decBytes 7 = [55] :=
  ⟨(set_position_escape_emission 7 42 (by decide) (by decide) (by decide)
      (by decide)).1,
   by decide, by decide⟩

/-- C6: marshalling an n-byte payload below the capacity bound yields a
buffer of length n + 1 whose first n bytes are the payload and whose
last byte is the zero terminator, and reading the buffer back recovers
the payload. -/
theorem marshal_roundtrip (p : List Nat) (h : p.length < 256) :
    (marshal p).length = p.length + 1 ∧
    (marshal p).take p.length = p ∧
    (marshal p).drop p.length = [0] ∧
    readBack (marshal p) = p := by
  refine ⟨?_, ?_, ?_, ?_⟩ <;> simp [marshal, readBack]

/-- Witness for C6 at the payload [1, 2, 3]. -/
theorem marshal_roundtrip_witness :
    (marshal [1, 2, 3]).length = 3 + 1 ∧
    (marshal [1, 2, 3]).take 3 = [1, 2, 3] ∧
    (marshal [1, 2, 3]).drop 3 = [0] ∧
    readBack (marshal [1, 2, 3]) = [1, 2, 3] :=
  marshal_roundtrip [1, 2, 3] (by decide)

/-- C7: for every integer-typed argument — the coordinates of set_cell
and set_cursor, the cell attributes of set_cell, and the mode arguments
of set_input_mode and set_output_mode — validation succeeds exactly
when the argument converts losslessly to the native signed or unsigned
width expected by the handler; any non-numeric or out-of-width argument
makes the handler raise badarg. -/
theorem int_width_validation_iff (engine : EngineCall → Int)
    (a0 a1 a2 a3 a4 : ErlTerm) :
    ((nif_tb_set_cell engine a0 a1 a2 a3 a4).1 = ErlTerm.badarg ↔
      ¬(int32able a0 = true ∧ int32able a1 = true ∧ uint32able a2 = true ∧
        uint32able a3 = true ∧ uint32able a4 = true)) ∧
    ((nif_tb_set_cursor a0 a1).1 = ErlTerm.badarg ↔
      ¬(int32able a0 = true ∧ int32able a1 = true)) ∧
    ((nif_tb_set_input_mode engine a0).1 = ErlTerm.badarg ↔
      ¬ int32able a0 = true) ∧
    ((nif_tb_set_output_mode engine a0).1 = ErlTerm.badarg ↔
      ¬ int32able a0 = true) := by
  refine ⟨?_, ?_, ?_, ?_⟩
  · rw [nif_tb_set_cell_badarg_iff]
    simp only [enif_get_int_none_iff, enif_get_uint_none_iff]
    tauto
  · rw [nif_tb_set_cursor_badarg_iff]
    simp only [enif_get_int_none_iff]
    tauto
  · rw [nif_tb_set_input_mode_badarg_iff]
    exact enif_get_int_none_iff a0
  · rw [nif_tb_set_output_mode_badarg_iff]
    exact enif_get_int_none_iff a0

/-- C8: set_title with an argument count other than 1, and set_position
with an argument count other than 2, return the badarg error tuple with
no output; the dispatch table registers exactly arity 1 for set_title
and exactly arity 2 for set_position, so no other arity can be invoked. -/
theorem wrong_arity_rejected (w : Bool) (argv : List ErlTerm) :
    (argv.length ≠ 1 → tb_set_title w argv = (errBadargTuple, [])) ∧
    (argv.length ≠ 2 → tb_set_position w argv = (errBadargTuple, [])) ∧
    (nif_funcs.filter (fun e => e.1 == "tb_set_title")).map Prod.snd = [1] ∧
    (nif_funcs.filter (fun e => e.1 == "tb_set_position")).map Prod.snd = [2] := by
  refine ⟨?_, ?_, by decide, by decide⟩
  · intro h
    rcases argv with _ | ⟨a, _ | ⟨b, t⟩⟩
    · rfl
    · simp at h
    · rfl
  · intro h
    rcases argv with _ | ⟨a, _ | ⟨b, _ | ⟨c, t⟩⟩⟩
    · rfl
    · rfl
    · simp at h
    · rfl

/-- Witness for C8 at the empty and the one-element argument vectors. -/
theorem wrong_arity_rejected_witness :
    tb_set_title true [] = (errBadargTuple, []) ∧
    tb_set_position true [ErlTerm.int 0] = (errBadargTuple, []) :=
  ⟨(wrong_arity_rejected true []).1 (by decide),
   (wrong_arity_rejected true [ErlTerm.int 0]).2.1 (by decide)⟩

/-- C9: set_cursor and set_cell apply no range check beyond native
width: every pair of native-width signed integers — negative or large —
is forwarded unchanged to the engine, set_cursor always returns the ok
atom, and set_cell returns the engine status for the forwarded call. -/
theorem cursor_cell_no_range_check (engine : EngineCall → Int)
    (x y ch fg bg : Int)
    (hx0 : INT_MIN ≤ x) (hx1 : x ≤ INT_MAX)
    (hy0 : INT_MIN ≤ y) (hy1 : y ≤ INT_MAX)
    (hch0 : 0 ≤ ch) (hch1 : ch ≤ UINT_MAX)
    (hfg0 : 0 ≤ fg) (hfg1 : fg ≤ UINT_MAX)
    (hbg0 : 0 ≤ bg) (hbg1 : bg ≤ UINT_MAX) :
    nif_tb_set_cursor (ErlTerm.int x) (ErlTerm.int y) =
      (ErlTerm.atom "ok", [EngineCall.setCursor x y]) ∧
    nif_tb_set_cell engine (ErlTerm.int x) (ErlTerm.int y) (ErlTerm.int ch)
        (ErlTerm.int fg) (ErlTerm.int bg) =
      (ErlTerm.int (engine (EngineCall.setCell x y ch fg bg)),
       [EngineCall.setCell x y ch fg bg]) := by
  constructor <;>
    simp [nif_tb_set_cursor, nif_tb_set_cell, enif_get_int, enif_get_uint,
      hx0, hx1, hy0, hy1, hch0, hch1, hfg0, hfg1, hbg0, hbg1]

/-- Witness for C9 at a negative x and the largest signed-int y. -/
theorem cursor_cell_no_range_check_witness :
    nif_tb_set_cursor (ErlTerm.int (-5000)) (ErlTerm.int 2147483647) =
      (ErlTerm.atom "ok", [EngineCall.setCursor (-5000) 2147483647]) ∧
    nif_tb_set_cell (fun _ => 0) (ErlTerm.int (-5000))
        (ErlTerm.int 2147483647) (ErlTerm.int 65) (ErlTerm.int 16777215)
        (ErlTerm.int 0) =
      (ErlTerm.int 0, [EngineCall.setCell (-5000) 2147483647 65 16777215 0]) := by
  have h := cursor_cell_no_range_check (fun _ => 0) (-5000) 2147483647 65
    16777215 0 (by decide) (by decide) (by decide) (by decide) (by decide)
    (by decide) (by decide) (by decide) (by decide) (by decide)
  exact ⟨h.1, h.2⟩

/-- C10: for set_title and set_position the three outcome classes are
distinguishable by shape: every validation failure is the error tuple
with the fixed badarg atom, every platform-call failure is an error
tuple carrying a descriptive string, every success is the ok tuple with
the string set, and the shapes are pairwise distinct. -/
theorem decoration_result_shapes (argv : List ErlTerm) :
    ((tb_set_title true argv).1 = errBadargTuple ∨
      (tb_set_title true argv).1 = okSet) ∧
    ((tb_set_title false argv).1 = errBadargTuple ∨
      (tb_set_title false argv).1 = errMsg "Failed to set title") ∧
    ((tb_set_position true argv).1 = errBadargTuple ∨
      (tb_set_position true argv).1 = okSet) ∧
    ((tb_set_position false argv).1 = errBadargTuple ∨
      (tb_set_position false argv).1 = errMsg "Failed to set position") ∧
    errBadargTuple ≠ okSet ∧
    errBadargTuple ≠ errMsg "Failed to set title" ∧
    errBadargTuple ≠ errMsg "Failed to set position" ∧
    okSet ≠ errMsg "Failed to set title" ∧
    okSet ≠ errMsg "Failed to set position" := by
  refine ⟨?_, ?_, ?_, ?_, by decide, by decide, by decide, by decide,
    by decide⟩
  · simpa using tb_set_title_result_cases true argv
  · simpa using tb_set_title_result_cases false argv
  · simpa using tb_set_position_result_cases true argv
  · simpa using tb_set_position_result_cases false argv

end Termbox2Nif
